import Mathlib

/-
Shallow embedding of two AWS Config rules of this repository:
  src/python-rdklib/ALB_HTTP_TO_HTTPS_REDIRECTION_CHECK/ALB_HTTP_TO_HTTPS_REDIRECTION_CHECK.py
  src/python/IAM_ROLE_NOT_USED/IAM_ROLE_NOT_USED.py

Modelling conventions.
A paginated AWS API endpoint is modelled as the sequence of responses it
returns to the successive calls of one pagination loop: response i+1 is the
response to the call made with the continuation token carried by response i.
A response is a PagedResp: its list of items plus the optional continuation
token field (NextMarker for elbv2, nextToken / NextToken for config).
The Python code checks continuation in two different ways, both modelled:
membership of the key in the response dict (get_all_listeners,
get_all_listener_rules) corresponds to Option.isSome, and Python truthiness
of the retrieved value (get_all_albs, describe_roles) corresponds to the
token being present and a non-empty string.
Clients injected by the rdklib client factory become functions from the call
argument (an ARN) to the modelled response sequence. The synchronous
time.sleep throttle has no observable effect on values, so it is only kept
where a claim counts it: filter_to_only_albs returns, next to its items, the
number of sleep invocations its loop performed.
Dictionaries with a known shape become structures; an optional key becomes an
Option field (SslPolicy, RoleLastUsed); json.loads of the configuration
payload is modelled by representing the parsed object as an association list
of string keys and values. The Evaluation constructor of rdklib becomes the
Evaluation structure below; its optional annotation argument is the field
named annot. InvalidParametersError is modelled by Except.error.
-/

/-- One response of a paginated listing API: the items of the page and the
optional continuation token (NextMarker, nextToken or NextToken in the
Python code). -/
structure PagedResp (α : Type) where
  items : List α
  next : Option String
deriving DecidableEq

/-- Python truthiness of the value of an optional string field: present and
non-empty. -/
def truthy : Option String → Bool
  | none => false
  | some s => !s.data.isEmpty

/-- A response sequence is marker-chained when every response except the last
carries a continuation token (key present, as tested by the in operator in
get_all_listeners and get_all_listener_rules). -/
def chainedPages {α : Type} : List (PagedResp α) → Bool
  | [] => true
  | [_] => true
  | p :: q :: rest => p.next.isSome && chainedPages (q :: rest)

/-- A response sequence is token-chained when every response except the last
carries a truthy continuation token (as tested by Python truthiness in
get_all_albs and describe_roles). -/
def tokenChainedPages {α : Type} : List (PagedResp α) → Bool
  | [] => true
  | [_] => true
  | p :: q :: rest => truthy p.next && tokenChainedPages (q :: rest)

/-- The pagination loop shared by get_all_listeners and
get_all_listener_rules: accumulate the items of each response and keep
calling while the response carries a NextMarker key. -/
def get_all_paged {α : Type} : List (PagedResp α) → List α
  | [] => []
  | p :: rest => p.items ++ (if p.next.isSome then get_all_paged rest else [])

/-- An element of the Actions list of a listener rule. actionType models
action[Type]; redirectProtocol models the Protocol field of the optional
RedirectConfig sub-dict, when that sub-dict with that field is present. -/
structure ElbAction where
  actionType : String
  redirectProtocol : Option String
deriving DecidableEq

/-- A listener rule as returned by describe_rules. -/
structure ListenerRule where
  Actions : List ElbAction
deriving DecidableEq

/-- A listener as returned by describe_listeners. SslPolicy is none exactly
when the SslPolicy key is absent from the listener dict. -/
structure Listener where
  ListenerArn : String
  SslPolicy : Option String
deriving DecidableEq

/-- is_https_redirect_action of the ALB rule: the action type is redirect
and the redirect protocol is HTTPS. The Boolean and mirrors the
short-circuit of the Python and operator. -/
def is_https_redirect_action (action : ElbAction) : Bool :=
  action.actionType == "redirect" && action.redirectProtocol == some "HTTPS"

/-- is_listener_rule_compliant of the ALB rule: every action of the rule is
an HTTPS redirect action. -/
def is_listener_rule_compliant (listener_rule : ListenerRule) : Bool :=
  listener_rule.Actions.all is_https_redirect_action

/-- is_https_listener of the ALB rule: the SslPolicy key is in the listener
dict. -/
def is_https_listener (listener : Listener) : Bool :=
  listener.SslPolicy.isSome

/-- get_all_listener_rules of the ALB rule: paginate describe_rules for the
given listener ARN. The client is the modelled response sequence per ARN. -/
def get_all_listener_rules (client : String → List (PagedResp ListenerRule))
    (listener_arn : String) : List ListenerRule :=
  get_all_paged (client listener_arn)

/-- get_all_listeners of the ALB rule: paginate describe_listeners for the
given load balancer ARN. -/
def get_all_listeners (client : String → List (PagedResp Listener))
    (elbv2_arn : String) : List Listener :=
  get_all_paged (client elbv2_arn)

/-- is_listener_compliant of the ALB rule: an HTTPS listener is compliant
outright; otherwise fetch the listener rules and require each of them to be
compliant. -/
def is_listener_compliant (listener : Listener)
    (alb_client : String → List (PagedResp ListenerRule)) : Bool :=
  if is_https_listener listener then
    true
  else
    (get_all_listener_rules alb_client listener.ListenerArn).all
      is_listener_rule_compliant

/-- Variant of is_listener_compliant written from the words of the spec
(section 4.3): skip the short-circuit and always fetch and evaluate the
listener rules. Used to compare the two for the refinement claim. -/
def is_listener_compliant_no_shortcut (listener : Listener)
    (alb_client : String → List (PagedResp ListenerRule)) : Bool :=
  (get_all_listener_rules alb_client listener.ListenerArn).all
    is_listener_rule_compliant

/-- A resource identifier as returned by list_discovered_resources. -/
structure ResourceIdentifier where
  resourceType : String
  resourceId : String
deriving DecidableEq

/-- A resource key as passed to batch_get_resource_config. -/
structure ResourceKey where
  resourceType : String
  resourceId : String
deriving DecidableEq

/-- A base configuration item as returned by batch_get_resource_config,
with its configuration JSON payload already parsed to an association list
(json.loads in is_alb). -/
structure BaseConfigItem where
  resourceId : String
  configuration : List (String × String)
deriving DecidableEq

/-- Lookup of a key in a parsed JSON object, modelling dict.get. -/
def lookupKey : List (String × String) → String → Option String
  | [], _ => none
  | (k, v) :: rest, key => if k == key then some v else lookupKey rest key

/-- is_alb of the ALB rule: the type field of the parsed configuration
payload equals application. -/
def is_alb (resource : BaseConfigItem) : Bool :=
  lookupKey resource.configuration "type" == some "application"

/-- One response of batch_get_resource_config. An absent
unprocessedResourceKeys key and an empty list are both modelled as the empty
list, which is how Python truthiness treats them in the loop condition. -/
structure BatchResp where
  baseConfigurationItems : List BaseConfigItem
  unprocessedResourceKeys : List ResourceKey
deriving DecidableEq

/-- The while loop of filter_to_only_albs: while the key list is non-empty,
issue a batch call (consuming the next modelled response), keep the items
satisfying is_alb, continue on the unprocessed keys, and sleep whenever the
unprocessed key list is non-empty. Returns the kept items together with the
number of sleep invocations. -/
def run_batches : List ResourceKey → List BatchResp → List BaseConfigItem × Nat
  | [], _ => ([], 0)
  | _ :: _, [] => ([], 0)
  | _ :: _, b :: rest =>
    let kept := b.baseConfigurationItems.filter is_alb
    if b.unprocessedResourceKeys.isEmpty then
      (kept, 0)
    else
      let r := run_batches b.unprocessedResourceKeys rest
      (kept ++ r.1, r.2 + 1)

/-- Build the resource keys handed to batch_get_resource_config from the
resource identifiers of a listing page. -/
def to_resource_keys (all_elbv2 : List ResourceIdentifier) : List ResourceKey :=
  all_elbv2.map (fun elb => ResourceKey.mk elb.resourceType elb.resourceId)

/-- filter_to_only_albs of the ALB rule. The batch client is modelled as a
function from the initial key list to the sequence of responses the
successive batch_get_resource_config calls of this loop receive. Returns
the kept configuration items and the number of sleep invocations. -/
def filter_to_only_albs (config_client : List ResourceKey → List BatchResp)
    (all_elbv2 : List ResourceIdentifier) : List BaseConfigItem × Nat :=
  let resource_keys := to_resource_keys all_elbv2
  run_batches resource_keys (config_client resource_keys)

/-- The pagination loop of get_all_albs over list_albs pages: each
list_discovered_resources response has its identifiers filtered through
filter_to_only_albs, and the loop continues while the nextToken value is
truthy. -/
def get_albs_items (config_client : List ResourceKey → List BatchResp) :
    List (PagedResp ResourceIdentifier) → List BaseConfigItem
  | [] => []
  | p :: rest =>
    (filter_to_only_albs config_client p.items).1 ++
      (if truthy p.next then get_albs_items config_client rest else [])

/-- get_all_albs of the ALB rule: the resourceId of every kept configuration
item, across all listing pages. -/
def get_all_albs (config_client : List ResourceKey → List BatchResp)
    (config_pages : List (PagedResp ResourceIdentifier)) : List String :=
  (get_albs_items config_client config_pages).map BaseConfigItem.resourceId

/-- The rdklib ComplianceType values used by these rules. -/
inductive ComplianceType
  | COMPLIANT
  | NON_COMPLIANT
  | NOT_APPLICABLE
deriving DecidableEq

/-- The rdklib Evaluation constructor: compliance type, resource id,
resource type and the optional annotation argument (field annot). -/
structure Evaluation where
  complianceType : ComplianceType
  resourceId : String
  resourceType : String
  annot : Option String
deriving DecidableEq

/-- DEFAULT_RESOURCE_TYPE of the ALB rule. -/
def DEFAULT_RESOURCE_TYPE : String := "AWS::ElasticLoadBalancingV2::LoadBalancer"

/-- The external collaborators of the ALB rule, as built by its client
factory: the config listing pages, the batch describe client, and the two
elbv2 paginated endpoints keyed by ARN. -/
structure AlbEnv where
  configPages : List (PagedResp ResourceIdentifier)
  batchClient : List ResourceKey → List BatchResp
  listenerPages : String → List (PagedResp Listener)
  rulesPages : String → List (PagedResp ListenerRule)

/-- evaluate_periodic of the ALB_HTTP_TO_HTTPS_REDIRECTION_CHECK rule: for
every ALB kept by get_all_albs, fetch all its listeners; when every listener
is compliant append a COMPLIANT evaluation, otherwise a NON_COMPLIANT one
with the fixed annotation. -/
def ALB_HTTP_TO_HTTPS_REDIRECTION_CHECK.evaluate_periodic (env : AlbEnv) :
    List Evaluation :=
  (get_all_albs env.batchClient env.configPages).map (fun elb =>
    if (get_all_listeners env.listenerPages elb).all
        (fun listener => is_listener_compliant listener env.rulesPages) then
      Evaluation.mk ComplianceType.COMPLIANT elb DEFAULT_RESOURCE_TYPE none
    else
      Evaluation.mk ComplianceType.NON_COMPLIANT elb DEFAULT_RESOURCE_TYPE
        (some "HTTP listener rule must have HTTP to HTTPS redirection action configured"))

/-- One row of a select_resource_config result, with the json.loads of the
row already applied: resourceName is the field describe_roles extracts. -/
structure SelectResult where
  resourceName : String
deriving DecidableEq

/-- describe_roles of the IAM rule: yield the resourceName of every result
of every select_resource_config response; keep calling while the response
has a NextToken key whose value is truthy (an absent key, and a present but
empty token, both end the generator). -/
def describe_roles : List (PagedResp SelectResult) → List String
  | [] => []
  | p :: rest =>
    p.items.map SelectResult.resourceName ++
      (if truthy p.next then describe_roles rest else [])

/-- The Role part of a get_role response. RoleLastUsed models the
RoleLastUsed dict, which is falsy exactly when it carries no LastUsedDate;
its value and CreateDate are timestamps measured in whole days, so that
subtracting two of them is the days attribute of the Python timedelta. -/
structure RoleData where
  RoleLastUsed : Option Int
  CreateDate : Int
deriving DecidableEq

/-- RESOURCE_TYPE of the IAM rule. -/
def RESOURCE_TYPE : String := "AWS::IAM::Role"

/-- DEFAULT_DAYS of the IAM rule. -/
def DEFAULT_DAYS : Int := 90

/-- The external collaborators and ambient state of the IAM rule: the
select_resource_config pages, the get_role client, the CURRENT_TIME constant
(in days) and the validated DaysBeforeUnused parameter. -/
structure IamEnv where
  rolePages : List (PagedResp SelectResult)
  getRole : String → RoleData
  currentTime : Int
  daysBeforeUnused : Int

/-- evaluate_periodic of the IAM_ROLE_NOT_USED rule: for every role name
yielded by describe_roles, compute the days since last use, falling back to
the creation date when the RoleLastUsed dict is falsy, and append a
COMPLIANT evaluation when the difference is at most DaysBeforeUnused,
otherwise a NON_COMPLIANT one with the fixed annotation. -/
def IAM_ROLE_NOT_USED.evaluate_periodic (env : IamEnv) : List Evaluation :=
  (describe_roles env.rolePages).map (fun username =>
    let user_data := env.getRole username
    let diff :=
      match user_data.RoleLastUsed with
      | some lastUsedDate => env.currentTime - lastUsedDate
      | none => env.currentTime - user_data.CreateDate
    if diff ≤ env.daysBeforeUnused then
      Evaluation.mk ComplianceType.COMPLIANT username RESOURCE_TYPE none
    else
      Evaluation.mk ComplianceType.NON_COMPLIANT username RESOURCE_TYPE
        (some "Ensure that no AWS IAM Role is unused and make an action if unused (e.g. delete the user)."))

/-- A value a rule parameter can hold in the parameters dict: a JSON string
or a JSON integer. -/
inductive ParamValue
  | str (s : String)
  | int (n : Int)
deriving DecidableEq

/-- Python truthiness of a parameter value: the empty string and the number
zero are falsy. -/
def falsy : ParamValue → Bool
  | .str s => s.data.isEmpty
  | .int n => n == 0

/-- Decimal value of a non-empty run of digit characters; none when a
non-digit occurs. The accumulator runs left to right. -/
def digitsValAux : List Char → Nat → Option Nat
  | [], acc => some acc
  | c :: cs, acc =>
    if c.isDigit then digitsValAux cs (acc * 10 + (c.toNat - 48)) else none

/-- Decimal value of a character list: at least one character, all digits. -/
def digitsVal : List Char → Option Nat
  | [] => none
  | c :: cs => digitsValAux (c :: cs) 0

/-- Drop the leading whitespace characters of a character list. -/
def dropLeadingWs : List Char → List Char
  | [] => []
  | c :: rest => if c.isWhitespace then dropLeadingWs rest else c :: rest

/-- Strip whitespace from both ends of a character list. -/
def trimChars (cs : List Char) : List Char :=
  (dropLeadingWs ((dropLeadingWs cs).reverse)).reverse

/-- The Python int constructor applied to a parameter value: an integer is
returned unchanged; a string is stripped of surrounding whitespace and read
as an optionally signed non-empty run of digits, and any other string raises
ValueError (modelled as none). -/
def toIntPy : ParamValue → Option Int
  | .int n => some n
  | .str s =>
    match trimChars s.toList with
    | [] => none
    | c :: cs =>
      if c == ('-') then (digitsVal cs).map (fun n => -(n : Int))
      else if c == ('+') then (digitsVal cs).map (fun n => (n : Int))
      else (digitsVal (c :: cs)).map (fun n => (n : Int))

/-- evaluate_parameters of the IAM_ROLE_NOT_USED rule, on the
DaysBeforeUnused entry of the parameters dict (none models an absent key).
A missing key raises InvalidParametersError; a falsy value is replaced by
DEFAULT_DAYS; a value int cannot convert raises; a negative converted value
raises; otherwise the validated integer is returned. Except.error models
the raised InvalidParametersError with its message. -/
def IAM_ROLE_NOT_USED.evaluate_parameters (daysBeforeUnused : Option ParamValue) :
    Except String Int :=
  match daysBeforeUnused with
  | none => Except.error "The Config Rule must have the parameter \"DaysBeforeUnused\""
  | some v =>
    let v := if falsy v then ParamValue.int DEFAULT_DAYS else v
    match toIntPy v with
    | none => Except.error "The parameter \"DaysBeforeUnused\" must be a integer"
    | some n =>
      if n < 0 then
        Except.error "The parameter \"DaysBeforeUnused\" must be greater than or equal to 0"
      else
        Except.ok n

/-- A response sequence of batch_get_resource_config is well formed for one
run of the filter loop when it is non-empty, every response except the last
returns unprocessed keys, and the last one returns none. -/
def batchesWellFormed : List BatchResp → Bool
  | [] => false
  | [b] => b.unprocessedResourceKeys.isEmpty
  | b :: rest => !b.unprocessedResourceKeys.isEmpty && batchesWellFormed rest

/-- A marker-chained pagination loop accumulates exactly the concatenation
of the items of all its pages, in page order. -/
theorem get_all_paged_eq_flatten {α : Type} (pages : List (PagedResp α))
    (h : chainedPages pages = true) :
    get_all_paged pages = (pages.map PagedResp.items).flatten := by
  induction pages with
  | nil => rfl
  | cons p rest ih =>
    cases rest with
    | nil => cases hp : p.next <;> simp [get_all_paged, hp]
    | cons q rest2 =>
      simp only [chainedPages, Bool.and_eq_true] at h
      calc get_all_paged (p :: q :: rest2)
          = p.items ++ get_all_paged (q :: rest2) := by
            rw [get_all_paged, h.1]; simp
        _ = p.items ++ (List.map PagedResp.items (q :: rest2)).flatten := by
            rw [ih h.2]
        _ = (List.map PagedResp.items (p :: q :: rest2)).flatten := by simp

/-- A token-chained describe_roles loop yields exactly the resourceName of
every result of every page, in page order. -/
theorem describe_roles_eq_flatten (pages : List (PagedResp SelectResult))
    (h : tokenChainedPages pages = true) :
    describe_roles pages =
      ((pages.map PagedResp.items).flatten).map SelectResult.resourceName := by
  induction pages with
  | nil => rfl
  | cons p rest ih =>
    cases rest with
    | nil => cases hp : truthy p.next <;> simp [describe_roles, hp]
    | cons q rest2 =>
      simp only [tokenChainedPages, Bool.and_eq_true] at h
      calc describe_roles (p :: q :: rest2)
          = p.items.map SelectResult.resourceName ++ describe_roles (q :: rest2) := by
            rw [describe_roles, h.1]; simp
        _ = p.items.map SelectResult.resourceName ++
              (List.map PagedResp.items (q :: rest2)).flatten.map SelectResult.resourceName := by
            rw [ih h.2]
        _ = ((List.map PagedResp.items (p :: q :: rest2)).flatten).map SelectResult.resourceName := by
            simp

/-- The length of a flattened list of lists of constant length. -/
theorem flatten_length_const {α : Type} (L : List (List α)) (k : Nat)
    (h : ∀ l ∈ L, l.length = k) : L.flatten.length = L.length * k := by
  induction L with
  | nil => simp
  | cons a t ih =>
    simp only [List.flatten_cons, List.length_append, List.length_cons]
    rw [h a (List.mem_cons_self a t),
      ih (fun l hl => h l (List.mem_cons_of_mem a hl)), Nat.succ_mul,
      Nat.add_comm]

/-- A well formed run of the batch loop keeps the filtered items of every
batch in order and sleeps once per batch except the last. -/
theorem run_batches_eq (batches : List BatchResp) :
    ∀ keys : List ResourceKey, keys ≠ [] → batchesWellFormed batches = true →
      run_batches keys batches =
        ((batches.map (fun b => b.baseConfigurationItems.filter is_alb)).flatten,
          batches.length - 1) := by
  induction batches with
  | nil => intro keys hk h; simp [batchesWellFormed] at h
  | cons b rest ih =>
    intro keys hk h
    cases keys with
    | nil => exact absurd rfl hk
    | cons k0 ks =>
      cases rest with
      | nil =>
        simp only [batchesWellFormed] at h
        simp [run_batches, h]
      | cons b2 rest2 =>
        simp only [batchesWellFormed, Bool.and_eq_true] at h
        obtain ⟨h1, h2⟩ := h
        cases hu : b.unprocessedResourceKeys with
        | nil => rw [hu] at h1; simp at h1
        | cons u us =>
          have hrec := ih (u :: us) (by simp) h2
          rw [run_batches, hu]
          simp only [List.isEmpty_cons, if_false, Bool.false_eq_true, hrec]
          simp [List.length_cons]

/-- A sample ALB environment: one listing page with one ALB whose single
HTTP listener has a single rule with a non-redirect action. -/
def sampleAlbEnv : AlbEnv :=
  AlbEnv.mk
    [PagedResp.mk
      [ResourceIdentifier.mk "AWS::ElasticLoadBalancingV2::LoadBalancer" "alb-1"] none]
    (fun _ => [BatchResp.mk [BaseConfigItem.mk "alb-1" [("type", "application")]] []])
    (fun _ => [PagedResp.mk [Listener.mk "listener-1" none] none])
    (fun _ => [PagedResp.mk [ListenerRule.mk [ElbAction.mk "forward" none]] none])

/-- A sample ALB environment: one ALB that has no listeners at all. -/
def sampleAlbEnvNoListeners : AlbEnv :=
  AlbEnv.mk
    [PagedResp.mk
      [ResourceIdentifier.mk "AWS::ElasticLoadBalancingV2::LoadBalancer" "alb-2"] none]
    (fun _ => [BatchResp.mk [BaseConfigItem.mk "alb-2" [("type", "application")]] []])
    (fun _ => [])
    (fun _ => [])

/-- A sample ALB environment in which the listing discovers no resources. -/
def emptyAlbEnv : AlbEnv :=
  AlbEnv.mk [PagedResp.mk [] none] (fun _ => []) (fun _ => []) (fun _ => [])

/-- A sample IAM environment: one role that was never used, created 50 days
before the current time, against a 90 day parameter. -/
def sampleIamEnv : IamEnv :=
  IamEnv.mk [PagedResp.mk [SelectResult.mk "role-1"] none]
    (fun _ => RoleData.mk none 100) 150 90

/-- Claim C2 counterexample: an HTTPS listener (SslPolicy key present)
whose single rule carries a forward action is judged compliant by
is_listener_compliant but non-compliant by the variant that skips the
short-circuit, so omitting the short-circuit changes the returned boolean,
not only the number of describe_rules calls. -/
theorem shortcut_changes_verdict_on_https_listener :
    is_listener_compliant (Listener.mk "arn-l1" (some "ELBSecurityPolicy-2016-08"))
        (fun _ => [PagedResp.mk [ListenerRule.mk [ElbAction.mk "forward" none]] none]) = true
    ∧ is_listener_compliant_no_shortcut (Listener.mk "arn-l1" (some "ELBSecurityPolicy-2016-08"))
        (fun _ => [PagedResp.mk [ListenerRule.mk [ElbAction.mk "forward" none]] none]) = false :=
  ⟨rfl, rfl⟩

/-- Claim C2 (amended): the short-circuit is semantically significant, not
an optimization only. is_listener_compliant equals the disjunction of
is_https_listener and the no-short-circuit variant, so the two variants
agree exactly on listeners that are not HTTPS or whose rules all pass the
redirect predicate, and can differ on an HTTPS listener otherwise. -/
theorem shortcut_equals_or_of_rules_check (listener : Listener)
    (alb_client : String → List (PagedResp ListenerRule)) :
    is_listener_compliant listener alb_client =
      (is_https_listener listener ||
        is_listener_compliant_no_shortcut listener alb_client) := by
  cases h : is_https_listener listener <;>
    simp [is_listener_compliant, is_listener_compliant_no_shortcut, h]

/-- Claim C9: empty sub-resource collections are vacuously compliant at
every level: a filtered load balancer with zero listeners receives the
verdict COMPLIANT, a non-HTTPS listener with zero rules is judged compliant
by is_listener_compliant, and a listener rule with an empty Actions list is
judged compliant by is_listener_rule_compliant. -/
theorem empty_collections_vacuously_compliant :
    (∀ (env : AlbEnv) (i : Nat) (elb : String) (ev : Evaluation),
      (get_all_albs env.batchClient env.configPages)[i]? = some elb →
      (ALB_HTTP_TO_HTTPS_REDIRECTION_CHECK.evaluate_periodic env)[i]? = some ev →
      get_all_listeners env.listenerPages elb = [] →
      Evaluation.complianceType ev = ComplianceType.COMPLIANT)
    ∧ (∀ (listener : Listener) (alb_client : String → List (PagedResp ListenerRule)),
      is_https_listener listener = false →
      get_all_listener_rules alb_client listener.ListenerArn = [] →
      is_listener_compliant listener alb_client = true)
    ∧ (∀ listener_rule : ListenerRule, listener_rule.Actions = [] →
      is_listener_rule_compliant listener_rule = true) := by
  refine ⟨?_, ?_, ?_⟩
  · intro env i elb ev helb hev hnil
    unfold ALB_HTTP_TO_HTTPS_REDIRECTION_CHECK.evaluate_periodic at hev
    rw [List.getElem?_map, helb] at hev
    simp [hnil] at hev
    subst hev
    rfl
  · intro listener alb_client hh hr
    simp [is_listener_compliant, hh, hr]
  · intro listener_rule hr
    simp [is_listener_rule_compliant, hr]

/-- Claim C9 witness: the sample load balancer with zero listeners is
COMPLIANT, a concrete non-HTTPS listener with zero rules is compliant, and
a concrete rule with no actions is compliant. -/
theorem empty_collections_vacuously_compliant_witness :
    Evaluation.complianceType
        (Evaluation.mk ComplianceType.COMPLIANT "alb-2" DEFAULT_RESOURCE_TYPE none) =
      ComplianceType.COMPLIANT
    ∧ is_listener_compliant (Listener.mk "listener-x" none) (fun _ => []) = true
    ∧ is_listener_rule_compliant (ListenerRule.mk []) = true :=
  ⟨empty_collections_vacuously_compliant.1 sampleAlbEnvNoListeners 0 "alb-2"
      (Evaluation.mk ComplianceType.COMPLIANT "alb-2" DEFAULT_RESOURCE_TYPE none) rfl rfl rfl,
    empty_collections_vacuously_compliant.2.1 (Listener.mk "listener-x" none)
      (fun _ => []) rfl rfl,
    empty_collections_vacuously_compliant.2.2 (ListenerRule.mk []) rfl⟩

/-- Claim C10: a present but falsy DaysBeforeUnused (the empty string or
the number 0) is silently replaced by the default 90 before integer
conversion and raises no error, so a falsy input always validates to 90
(never to 0), while the non-falsy string 0 validates to the integer 0. -/
theorem falsy_days_parameter_defaults_to_ninety :
    (∀ v : ParamValue, falsy v = true →
      IAM_ROLE_NOT_USED.evaluate_parameters (some v) = Except.ok 90)
    ∧ IAM_ROLE_NOT_USED.evaluate_parameters (some (ParamValue.str "0")) = Except.ok 0 := by
  refine ⟨?_, rfl⟩
  intro v hv
  simp only [IAM_ROLE_NOT_USED.evaluate_parameters]
  rw [if_pos hv]
  rfl

/-- Claim C10 witness: the empty string and the number 0 both validate to
90. -/
theorem falsy_days_parameter_defaults_to_ninety_witness :
    IAM_ROLE_NOT_USED.evaluate_parameters (some (ParamValue.str "")) = Except.ok 90
    ∧ IAM_ROLE_NOT_USED.evaluate_parameters (some (ParamValue.int 0)) = Except.ok 90 :=
  ⟨falsy_days_parameter_defaults_to_ninety.1 (ParamValue.str "") rfl,
    falsy_days_parameter_defaults_to_ninety.1 (ParamValue.int 0) rfl⟩

/-- Claim C1: the verdict emitted for the i-th evaluated load balancer is
COMPLIANT exactly when every one of its listeners satisfies
is_listener_compliant, and when some listener fails the verdict is
NON_COMPLIANT carrying the fixed annotation string. -/
theorem alb_verdict_matches_listener_compliance (env : AlbEnv) (i : Nat)
    (elb : String) (ev : Evaluation)
    (helb : (get_all_albs env.batchClient env.configPages)[i]? = some elb)
    (hev : (ALB_HTTP_TO_HTTPS_REDIRECTION_CHECK.evaluate_periodic env)[i]? = some ev) :
    (Evaluation.complianceType ev = ComplianceType.COMPLIANT ↔
      (get_all_listeners env.listenerPages elb).all
        (fun listener => is_listener_compliant listener env.rulesPages) = true)
    ∧ ((get_all_listeners env.listenerPages elb).all
        (fun listener => is_listener_compliant listener env.rulesPages) = false →
      Evaluation.complianceType ev = ComplianceType.NON_COMPLIANT ∧
      Evaluation.annot ev =
        some "HTTP listener rule must have HTTP to HTTPS redirection action configured") := by
  unfold ALB_HTTP_TO_HTTPS_REDIRECTION_CHECK.evaluate_periodic at hev
  rw [List.getElem?_map, helb] at hev
  cases hall : (get_all_listeners env.listenerPages elb).all
      (fun listener => is_listener_compliant listener env.rulesPages) with
  | true =>
    simp only [Option.map_some', Option.some.injEq, hall, if_true] at hev
    subst hev
    simp [hall]
  | false =>
    simp only [Option.map_some', Option.some.injEq, hall, Bool.false_eq_true,
      if_false] at hev
    subst hev
    simp [hall]

/-- Claim C1 witness: in the sample environment the single load balancer
has a failing listener and receives the NON_COMPLIANT verdict with the
fixed annotation. -/
theorem alb_verdict_matches_listener_compliance_witness :
    Evaluation.complianceType
        (Evaluation.mk ComplianceType.NON_COMPLIANT "alb-1" DEFAULT_RESOURCE_TYPE
          (some "HTTP listener rule must have HTTP to HTTPS redirection action configured")) =
      ComplianceType.NON_COMPLIANT
    ∧ Evaluation.annot
        (Evaluation.mk ComplianceType.NON_COMPLIANT "alb-1" DEFAULT_RESOURCE_TYPE
          (some "HTTP listener rule must have HTTP to HTTPS redirection action configured")) =
      some "HTTP listener rule must have HTTP to HTTPS redirection action configured" :=
  (alb_verdict_matches_listener_compliance sampleAlbEnv 0 "alb-1"
    (Evaluation.mk ComplianceType.NON_COMPLIANT "alb-1" DEFAULT_RESOURCE_TYPE
      (some "HTTP listener rule must have HTTP to HTTPS redirection action configured"))
    rfl rfl).2 rfl

/-- Claim C3: evaluate_periodic emits exactly one verdict per resource kept
by get_all_albs, whatever the number of listeners and rules; in particular
zero kept resources yield the empty evaluation list. -/
theorem evaluations_count_equals_filtered_resources (env : AlbEnv) :
    (ALB_HTTP_TO_HTTPS_REDIRECTION_CHECK.evaluate_periodic env).length =
      (get_all_albs env.batchClient env.configPages).length
    ∧ (get_all_albs env.batchClient env.configPages = [] →
      ALB_HTTP_TO_HTTPS_REDIRECTION_CHECK.evaluate_periodic env = []) := by
  constructor
  · simp [ALB_HTTP_TO_HTTPS_REDIRECTION_CHECK.evaluate_periodic]
  · intro h
    simp [ALB_HTTP_TO_HTTPS_REDIRECTION_CHECK.evaluate_periodic, h]

/-- Claim C3 witness: in the sample environment that discovers no resource
the rule emits zero verdicts, and the counts agree. -/
theorem evaluations_count_equals_filtered_resources_witness :
    ALB_HTTP_TO_HTTPS_REDIRECTION_CHECK.evaluate_periodic emptyAlbEnv = []
    ∧ (ALB_HTTP_TO_HTTPS_REDIRECTION_CHECK.evaluate_periodic emptyAlbEnv).length =
      (get_all_albs emptyAlbEnv.batchClient emptyAlbEnv.configPages).length :=
  ⟨(evaluations_count_equals_filtered_resources emptyAlbEnv).2 rfl,
    (evaluations_count_equals_filtered_resources emptyAlbEnv).1⟩

/-- Mapping a per-resource evaluation over a list and then projecting the
resource id recovers a pointwise image of the list. -/
theorem map_resourceId_map {α : Type} (f : α → Evaluation) (g : α → String)
    (h : ∀ a, Evaluation.resourceId (f a) = g a) :
    ∀ l : List α, (l.map f).map Evaluation.resourceId = l.map g := by
  intro l
  induction l with
  | nil => rfl
  | cons a t ih => simp [h a, ih]

/-- Claim C8: the emitted verdict list follows discovery order: projecting
the resource id of each evaluation of evaluate_periodic recovers exactly
the list produced by get_all_albs (respectively describe_roles), in
order. -/
theorem verdict_order_follows_discovery_order (env : AlbEnv) (ienv : IamEnv) :
    (ALB_HTTP_TO_HTTPS_REDIRECTION_CHECK.evaluate_periodic env).map Evaluation.resourceId =
      get_all_albs env.batchClient env.configPages
    ∧ (IAM_ROLE_NOT_USED.evaluate_periodic ienv).map Evaluation.resourceId =
      describe_roles ienv.rolePages := by
  constructor
  · unfold ALB_HTTP_TO_HTTPS_REDIRECTION_CHECK.evaluate_periodic
    rw [map_resourceId_map _ id (fun a => by simp [apply_ite Evaluation.resourceId]),
      List.map_id]
  · unfold IAM_ROLE_NOT_USED.evaluate_periodic
    rw [map_resourceId_map _ id (fun a => by simp [apply_ite Evaluation.resourceId]),
      List.map_id]

/-- Claim C4: a paginated fetch over a sequence of N responses, each
carrying its items and every response except the last carrying a
continuation token, returns the concatenation of all pages in page order
(get_all_listeners, get_all_listener_rules, describe_roles), and with k
items per page it returns N times k items. -/
theorem paginated_fetch_concatenates_pages
    (listener_client : String → List (PagedResp Listener))
    (rules_client : String → List (PagedResp ListenerRule))
    (role_pages : List (PagedResp SelectResult))
    (elbv2_arn listener_arn : String) (k : Nat)
    (h1 : chainedPages (listener_client elbv2_arn) = true)
    (h2 : chainedPages (rules_client listener_arn) = true)
    (h3 : tokenChainedPages role_pages = true)
    (hk : ∀ p ∈ listener_client elbv2_arn, (PagedResp.items p).length = k) :
    get_all_listeners listener_client elbv2_arn =
      ((listener_client elbv2_arn).map PagedResp.items).flatten
    ∧ get_all_listener_rules rules_client listener_arn =
      ((rules_client listener_arn).map PagedResp.items).flatten
    ∧ describe_roles role_pages =
      ((role_pages.map PagedResp.items).flatten).map SelectResult.resourceName
    ∧ (get_all_listeners listener_client elbv2_arn).length =
      (listener_client elbv2_arn).length * k := by
  refine ⟨get_all_paged_eq_flatten _ h1, get_all_paged_eq_flatten _ h2,
    describe_roles_eq_flatten _ h3, ?_⟩
  have hmem : ∀ l ∈ (listener_client elbv2_arn).map PagedResp.items, l.length = k := by
    intro l hl
    obtain ⟨p, hp, rfl⟩ := List.mem_map.mp hl
    exact hk p hp
  rw [get_all_listeners, get_all_paged_eq_flatten _ h1,
    flatten_length_const _ k hmem, List.length_map]

/-- Claim C4 witness: two chained pages of two listeners each, two chained
rule pages and two chained role pages concatenate in page order. -/
theorem paginated_fetch_concatenates_pages_witness :
    get_all_listeners
        (fun _ => [PagedResp.mk [Listener.mk "l-1" none, Listener.mk "l-2" none] (some "m1"),
          PagedResp.mk [Listener.mk "l-3" none, Listener.mk "l-4" none] none]) "arn-a" =
      [Listener.mk "l-1" none, Listener.mk "l-2" none, Listener.mk "l-3" none,
        Listener.mk "l-4" none]
    ∧ get_all_listener_rules
        (fun _ => [PagedResp.mk [ListenerRule.mk []] (some "m2"),
          PagedResp.mk [ListenerRule.mk [ElbAction.mk "redirect" (some "HTTPS")]] none]) "arn-l" =
      [ListenerRule.mk [], ListenerRule.mk [ElbAction.mk "redirect" (some "HTTPS")]]
    ∧ describe_roles
        [PagedResp.mk [SelectResult.mk "r1"] (some "t1"),
          PagedResp.mk [SelectResult.mk "r2"] none] = ["r1", "r2"]
    ∧ (get_all_listeners
        (fun _ => [PagedResp.mk [Listener.mk "l-1" none, Listener.mk "l-2" none] (some "m1"),
          PagedResp.mk [Listener.mk "l-3" none, Listener.mk "l-4" none] none]) "arn-a").length =
      2 * 2 := by
  have T := paginated_fetch_concatenates_pages
    (fun _ => [PagedResp.mk [Listener.mk "l-1" none, Listener.mk "l-2" none] (some "m1"),
      PagedResp.mk [Listener.mk "l-3" none, Listener.mk "l-4" none] none])
    (fun _ => [PagedResp.mk [ListenerRule.mk []] (some "m2"),
      PagedResp.mk [ListenerRule.mk [ElbAction.mk "redirect" (some "HTTPS")]] none])
    [PagedResp.mk [SelectResult.mk "r1"] (some "t1"),
      PagedResp.mk [SelectResult.mk "r2"] none]
    "arn-a" "arn-l" 2 (by decide) (by decide) (by decide) (by decide)
  exact ⟨T.1.trans rfl, T.2.1.trans rfl, T.2.2.1.trans rfl, T.2.2.2.trans rfl⟩

/-- Claim C5: when the batch responses are well formed (B batches, with
unprocessed keys returned by every batch except the last),
filter_to_only_albs keeps exactly the items satisfying is_alb of all B
batches in order, every such item is included, and the throttle sleep is
invoked exactly B-1 times. -/
theorem filter_keeps_every_batch_and_throttles_between
    (config_client : List ResourceKey → List BatchResp)
    (all_elbv2 : List ResourceIdentifier)
    (hne : all_elbv2 ≠ [])
    (hwf : batchesWellFormed (config_client (to_resource_keys all_elbv2)) = true) :
    (filter_to_only_albs config_client all_elbv2).1 =
      ((config_client (to_resource_keys all_elbv2)).map
        (fun b => b.baseConfigurationItems.filter is_alb)).flatten
    ∧ (filter_to_only_albs config_client all_elbv2).2 =
      (config_client (to_resource_keys all_elbv2)).length - 1
    ∧ ∀ b ∈ config_client (to_resource_keys all_elbv2),
        ∀ item ∈ b.baseConfigurationItems, is_alb item = true →
          item ∈ (filter_to_only_albs config_client all_elbv2).1 := by
  have hkeys : to_resource_keys all_elbv2 ≠ [] := by
    cases all_elbv2 with
    | nil => exact absurd rfl hne
    | cons a t => simp [to_resource_keys]
  have heq := run_batches_eq (config_client (to_resource_keys all_elbv2))
    (to_resource_keys all_elbv2) hkeys hwf
  have hfil : filter_to_only_albs config_client all_elbv2 =
      run_batches (to_resource_keys all_elbv2)
        (config_client (to_resource_keys all_elbv2)) := rfl
  refine ⟨?_, ?_, ?_⟩
  · rw [hfil, heq]
  · rw [hfil, heq]
  · intro b hb item hitem halb
    rw [hfil, heq]
    exact List.mem_flatten.mpr ⟨b.baseConfigurationItems.filter is_alb,
      List.mem_map.mpr ⟨b, hb, rfl⟩, List.mem_filter.mpr ⟨hitem, halb⟩⟩

/-- Claim C5 witness: two batches in which the first returns an unprocessed
key; both application items are kept in order and the sleep runs once. -/
theorem filter_keeps_every_batch_and_throttles_between_witness :
    (filter_to_only_albs
        (fun _ => [BatchResp.mk [BaseConfigItem.mk "alb-a" [("type", "application")]]
            [ResourceKey.mk "AWS::ElasticLoadBalancingV2::LoadBalancer" "alb-b"],
          BatchResp.mk [BaseConfigItem.mk "alb-b" [("type", "application")]] []])
        [ResourceIdentifier.mk "AWS::ElasticLoadBalancingV2::LoadBalancer" "alb-a",
          ResourceIdentifier.mk "AWS::ElasticLoadBalancingV2::LoadBalancer" "alb-b"]).1 =
      [BaseConfigItem.mk "alb-a" [("type", "application")],
        BaseConfigItem.mk "alb-b" [("type", "application")]]
    ∧ (filter_to_only_albs
        (fun _ => [BatchResp.mk [BaseConfigItem.mk "alb-a" [("type", "application")]]
            [ResourceKey.mk "AWS::ElasticLoadBalancingV2::LoadBalancer" "alb-b"],
          BatchResp.mk [BaseConfigItem.mk "alb-b" [("type", "application")]] []])
        [ResourceIdentifier.mk "AWS::ElasticLoadBalancingV2::LoadBalancer" "alb-a",
          ResourceIdentifier.mk "AWS::ElasticLoadBalancingV2::LoadBalancer" "alb-b"]).2 = 1
    ∧ BaseConfigItem.mk "alb-b" [("type", "application")] ∈
      (filter_to_only_albs
        (fun _ => [BatchResp.mk [BaseConfigItem.mk "alb-a" [("type", "application")]]
            [ResourceKey.mk "AWS::ElasticLoadBalancingV2::LoadBalancer" "alb-b"],
          BatchResp.mk [BaseConfigItem.mk "alb-b" [("type", "application")]] []])
        [ResourceIdentifier.mk "AWS::ElasticLoadBalancingV2::LoadBalancer" "alb-a",
          ResourceIdentifier.mk "AWS::ElasticLoadBalancingV2::LoadBalancer" "alb-b"]).1 := by
  have T := filter_keeps_every_batch_and_throttles_between
    (fun _ => [BatchResp.mk [BaseConfigItem.mk "alb-a" [("type", "application")]]
        [ResourceKey.mk "AWS::ElasticLoadBalancingV2::LoadBalancer" "alb-b"],
      BatchResp.mk [BaseConfigItem.mk "alb-b" [("type", "application")]] []])
    [ResourceIdentifier.mk "AWS::ElasticLoadBalancingV2::LoadBalancer" "alb-a",
      ResourceIdentifier.mk "AWS::ElasticLoadBalancingV2::LoadBalancer" "alb-b"]
    (by decide) (by decide)
  exact ⟨T.1.trans rfl, T.2.1.trans rfl,
    T.2.2 (BatchResp.mk [BaseConfigItem.mk "alb-b" [("type", "application")]] [])
      (by decide) (BaseConfigItem.mk "alb-b" [("type", "application")]) (by decide)
      (by decide)⟩

/-- Claim C6 counterexample: the empty string cannot be converted to an
integer by the Python int constructor, yet evaluate_parameters raises no
error for it: the falsy check replaces it by the default 90 before the
conversion, so the claimed equivalence fails at this input. -/
theorem nonconvertible_falsy_param_not_rejected :
    toIntPy (ParamValue.str "") = none
    ∧ IAM_ROLE_NOT_USED.evaluate_parameters (some (ParamValue.str "")) = Except.ok 90 :=
  ⟨rfl, rfl⟩

/-- Claim C6 (amended): evaluate_parameters raises InvalidParametersError
exactly when the present value is non-falsy and either cannot be converted
to an integer or converts to a negative integer (a falsy value is replaced
by the default 90 and never raises; an absent key also raises), and every
value it returns is a non-negative integer. -/
theorem evaluate_parameters_validation (v : ParamValue) :
    (∀ n : Int, IAM_ROLE_NOT_USED.evaluate_parameters (some v) = Except.ok n → 0 ≤ n)
    ∧ ((∃ msg, IAM_ROLE_NOT_USED.evaluate_parameters (some v) = Except.error msg) ↔
      (falsy v = false ∧ (toIntPy v = none ∨ ∃ n, toIntPy v = some n ∧ n < 0)))
    ∧ (∃ msg, IAM_ROLE_NOT_USED.evaluate_parameters none = Except.error msg) := by
  by_cases hf : falsy v = true
  · have he : IAM_ROLE_NOT_USED.evaluate_parameters (some v) = Except.ok 90 := by
      simp only [IAM_ROLE_NOT_USED.evaluate_parameters]
      rw [if_pos hf]
      rfl
    refine ⟨?_, ?_, ⟨_, rfl⟩⟩
    · intro n hn
      rw [he] at hn
      injection hn with h
      omega
    · simp [he, hf]
  · have hf2 : falsy v = false := by
      cases hfv : falsy v
      · rfl
      · exact absurd hfv hf
    have he : IAM_ROLE_NOT_USED.evaluate_parameters (some v) =
        (match toIntPy v with
        | none => Except.error "The parameter \"DaysBeforeUnused\" must be a integer"
        | some n =>
          if n < 0 then
            Except.error "The parameter \"DaysBeforeUnused\" must be greater than or equal to 0"
          else Except.ok n) := by
      simp only [IAM_ROLE_NOT_USED.evaluate_parameters]
      rw [if_neg hf]
    cases ht : toIntPy v with
    | none =>
      simp only [ht] at he
      refine ⟨?_, ?_, ⟨_, rfl⟩⟩
      · intro n hn
        rw [he] at hn
        exact absurd hn (by simp)
      · simp [he, hf2, ht]
    | some n =>
      simp only [ht] at he
      by_cases hneg : n < 0
      · rw [if_pos hneg] at he
        refine ⟨?_, ?_, ⟨_, rfl⟩⟩
        · intro m hm
          rw [he] at hm
          exact absurd hm (by simp)
        · simp only [he, hf2, ht, true_and]
          constructor
          · intro _
            exact Or.inr ⟨n, rfl, hneg⟩
          · intro _
            exact ⟨_, rfl⟩
      · rw [if_neg hneg] at he
        refine ⟨?_, ?_, ⟨_, rfl⟩⟩
        · intro m hm
          rw [he] at hm
          injection hm with h
          omega
        · simp [he, hf2, ht, hneg]

/-- Claim C6 witness: the string 5 validates to the non-negative integer 5
and the string -3 raises. -/
theorem evaluate_parameters_validation_witness :
    (0 : Int) ≤ 5
    ∧ (∃ msg, IAM_ROLE_NOT_USED.evaluate_parameters (some (ParamValue.str "-3")) =
        Except.error msg) :=
  ⟨(evaluate_parameters_validation (ParamValue.str "5")).1 5 rfl,
    (evaluate_parameters_validation (ParamValue.str "-3")).2.1.mpr
      ⟨rfl, Or.inr ⟨-3, rfl, by decide⟩⟩⟩

/-- Claim C7: a role whose optional last-used field is empty gets the
fallback: its verdict is computed from the CreateDate timestamp, the rule
does not raise, and it still emits exactly one verdict for that role, in
place. -/
theorem missing_last_used_falls_back_to_create_date (ienv : IamEnv) (i : Nat)
    (username : String) (ev : Evaluation)
    (hu : (describe_roles ienv.rolePages)[i]? = some username)
    (hev : (IAM_ROLE_NOT_USED.evaluate_periodic ienv)[i]? = some ev)
    (hmiss : (ienv.getRole username).RoleLastUsed = none) :
    (IAM_ROLE_NOT_USED.evaluate_periodic ienv).length =
      (describe_roles ienv.rolePages).length
    ∧ Evaluation.resourceId ev = username
    ∧ (Evaluation.complianceType ev = ComplianceType.COMPLIANT ↔
      ienv.currentTime - (ienv.getRole username).CreateDate ≤ ienv.daysBeforeUnused) := by
  unfold IAM_ROLE_NOT_USED.evaluate_periodic at hev
  rw [List.getElem?_map, hu] at hev
  simp only [Option.map_some', Option.some.injEq, hmiss] at hev
  refine ⟨by simp [IAM_ROLE_NOT_USED.evaluate_periodic], ?_, ?_⟩
  · rw [← hev]
    split <;> rfl
  · rw [← hev]
    by_cases hd : ienv.currentTime - (ienv.getRole username).CreateDate ≤
        ienv.daysBeforeUnused
    · simp [hd]
    · simp [hd]

/-- Claim C7 witness: the sample never-used role created 50 days ago is
evaluated from its creation date and found COMPLIANT against 90 days. -/
theorem missing_last_used_falls_back_to_create_date_witness :
    (IAM_ROLE_NOT_USED.evaluate_periodic sampleIamEnv).length =
      (describe_roles sampleIamEnv.rolePages).length
    ∧ Evaluation.resourceId
        (Evaluation.mk ComplianceType.COMPLIANT "role-1" RESOURCE_TYPE none) = "role-1"
    ∧ (Evaluation.complianceType
        (Evaluation.mk ComplianceType.COMPLIANT "role-1" RESOURCE_TYPE none) =
          ComplianceType.COMPLIANT ↔
      sampleIamEnv.currentTime - (sampleIamEnv.getRole "role-1").CreateDate ≤
        sampleIamEnv.daysBeforeUnused) :=
  missing_last_used_falls_back_to_create_date sampleIamEnv 0 "role-1"
    (Evaluation.mk ComplianceType.COMPLIANT "role-1" RESOURCE_TYPE none) rfl rfl rfl
